import Mathlib

/-!
Verification of the openclaw electron-desktop core against its design
specification.  The definitions below are a shallow embedding of the
TypeScript sources: the Gateway process supervisor (`src/index.ts` main
process), the IPC helper-binary runner (`runCommandWithTimeout`,
`memo-check`, `remindctl-authorize`), the onboarding configuration flows
(`ensureExtendedConfig`, `saveTelegramAllowFrom`, ...), and the chat
event handler of `ChatPage`.  Parts of the repository that are not in the
provided sources (the Gateway's server-side `config.patch` apply, the
chat Redux slice) are modelled from the specification and marked as such
in their doc comments.
-/

set_option linter.unusedVariables false

namespace OpenClaw

/-! ## A model of JavaScript structured values (JSON documents)

Configuration documents are arbitrary structured JSON values.  JS objects
are string-keyed maps with insertion order; we model them as association
lists.  -/

inductive Json where
  | jstr (s : String)
  | jnum (n : Int)
  | jbool (b : Bool)
  | jnull
  | jarr (elems : List Json)
  | jobj (fields : List (String × Json))
  deriving Repr

/-- Property read on a JS object (`obj[k]`): the value of the first field
named `k`, or `none` when absent (JS `undefined`).  Keys of a JS object
are unique, so "first" is exact. -/
def jget : List (String × Json) → String → Option Json
  | [], _ => none
  | (k', v) :: rest, k => if k' = k then some v else jget rest k

/-- JS property assignment `obj[k] = v` / object-spread override: replaces
the value in place when the key exists, otherwise appends the new key at
the end (JS insertion-order semantics). -/
def objSet : List (String × Json) → String → Json → List (String × Json)
  | [], k, v => [(k, v)]
  | (k', w) :: rest, k, v =>
    if k' = k then (k, v) :: rest else (k', w) :: objSet rest k v

/-- JS object spread `{...a, ...b}`: assign each field of `b` onto `a` in
order. -/
def objSpread (a b : List (String × Json)) : List (String × Json) :=
  b.foldl (fun acc kv => objSet acc kv.1 kv.2) a

/-- `getObject` from the onboarding source: a value is kept only when it
is a non-null, non-array object; anything else (including an absent key)
yields the empty object. -/
def getObject (v : Option Json) : List (String × Json) :=
  match v with
  | some (.jobj fields) => fields
  | _ => []

-- JS `String(v)` coercion, and `Array.prototype.join(",")` for arrays
-- (`null` elements render as the empty string inside a join).
mutual

def jsToString : Json → String
  | .jstr s => s
  | .jnum n => toString n
  | .jbool b => cond b "true" "false"
  | .jnull => "null"
  | .jarr xs => jsJoinComma xs
  | .jobj _ => "[object Object]"

def jsJoinComma : List Json → String
  | [] => ""
  | [.jnull] => ""
  | [x] => jsToString x
  | .jnull :: y :: xs => "," ++ jsJoinComma (y :: xs)
  | x :: y :: xs => jsToString x ++ "," ++ jsJoinComma (y :: xs)

end

/-- JS `String.prototype.trim()` (whitespace stripped from both ends),
written over the character list so that it evaluates on concrete
strings. -/
def jsTrim (s : String) : String :=
  ⟨((s.data.dropWhile Char.isWhitespace).reverse.dropWhile Char.isWhitespace).reverse⟩

/-- JS `String.prototype.toLowerCase()`. -/
def jsToLower (s : String) : String :=
  ⟨s.data.map Char.toLower⟩

/-- JS `String.prototype.startsWith(p)`. -/
def jsStartsWith (s p : String) : Bool :=
  p.data.isPrefixOf s.data

/-- JS `String.prototype.slice(n)` on characters. -/
def jsDropChars (s : String) (n : Nat) : String :=
  ⟨s.data.drop n⟩

/-- JS `String.prototype.slice(0, n)` on characters. -/
def jsTakeChars (s : String) (n : Nat) : String :=
  ⟨s.data.take n⟩

/-- JS `String.prototype.includes(c)` for a one-character needle. -/
def jsContainsChar (s : String) (c : Char) : Bool :=
  s.data.any (fun x => x = c)

/-- `getStringArray` from the onboarding source:
`value.map((v) => String(v).trim()).filter(Boolean)` for arrays, `[]`
otherwise. -/
def getStringArray (v : Option Json) : List String :=
  match v with
  | some (.jarr xs) => (xs.map (fun e => jsTrim (jsToString e))).filter (fun s => s ≠ "")
  | _ => []

/-- One insertion into the accumulating set of `Array.from(new Set(_))`:
keep the element only when it is not already present. -/
def uniqueStep (acc : List String) (s : String) : List String :=
  if s ∈ acc then acc else acc ++ [s]

/-- `unique` from the onboarding source: `Array.from(new Set(list))` —
keeps the first occurrence of each element, in order. -/
def unique (l : List String) : List String :=
  l.foldl uniqueStep []

/-- The trimmed string read the flows use everywhere:
`typeof v === "string" ? v.trim() : ""`. -/
def strTrimOf (v : Option Json) : String :=
  match v with
  | some (.jstr s) => jsTrim s
  | _ => ""

/-- Numeric read: `typeof v === "number" && Number.isFinite(v) ? v : null`. -/
def numOf (v : Option Json) : Option Int :=
  match v with
  | some (.jnum n) => some n
  | _ => none

/-! ## Basic association-list lemmas -/

theorem jget_objSet_self (fields : List (String × Json)) (k : String) (v : Json) :
    jget (objSet fields k v) k = some v := by
  induction fields with
  | nil => simp [objSet, jget]
  | cons p rest ih =>
    obtain ⟨k', w⟩ := p
    by_cases h : k' = k <;> simp [objSet, jget, h, ih]

theorem jget_objSet_other (fields : List (String × Json)) (k k' : String) (v : Json)
    (hne : k ≠ k') : jget (objSet fields k' v) k = jget fields k := by
  have hne' : k' ≠ k := fun h => hne h.symm
  induction fields with
  | nil => simp [objSet, jget, hne']
  | cons p rest ih =>
    obtain ⟨k₀, w⟩ := p
    by_cases h : k₀ = k' <;> by_cases h2 : k₀ = k <;>
      simp_all [objSet, jget, hne']

/-! ## Gateway process supervisor (main-process `index.ts`)

`GatewayState` is the tagged variant broadcast to the renderer:
`starting`, `ready`, `failed`. -/

inductive GatewayState where
  | starting (port : Int) (logsDir : String) (token : String)
  | ready (port : Int) (logsDir : String) (url : String) (token : String)
  | failed (port : Int) (logsDir : String) (details : String) (token : String)
  deriving Repr, DecidableEq

/-- JS `Array.prototype.join("\n")`. -/
def joinNl : List String → String
  | [] => ""
  | [x] => x
  | x :: y :: xs => x ++ "\n" ++ joinNl (y :: xs)

theorem joinNl_mem (s : String) (l : List String) (h : s ∈ l) :
    ∃ a b, joinNl l = a ++ s ++ b := by
  induction l with
  | nil => cases h
  | cons x xs ih =>
    cases xs with
    | nil =>
      rcases List.mem_cons.mp h with h1 | h2
      · exact ⟨"", "", by simp [joinNl, h1]⟩
      · cases h2
    | cons y ys =>
      rcases List.mem_cons.mp h with h1 | h2
      · exact ⟨"", "\n" ++ joinNl (y :: ys), by
          simp [joinNl, h1, String.append_assoc]⟩
      · obtain ⟨a, b, hab⟩ := ih h2
        refine ⟨x ++ "\n" ++ a, b, ?_⟩
        simp [joinNl, hab, String.append_assoc]

/-- The line the startup flow inserts for the stderr tail:
`stderrTail.read().trim() || "<empty>"` (the empty string is falsy). -/
def tailLine (tailRead : String) : String :=
  if jsTrim tailRead = "" then "<empty>" else jsTrim tailRead

/-- The `details` lines assembled by the startup flow when the port never
opened (the array literal joined with `"\n"`). -/
def failedDetailsLines (openclawDir nodeBin logsDir tailRead : String) : List String :=
  [ "Gateway did not open the port within 30s.",
    "",
    "openclawDir: " ++ openclawDir,
    "nodeBin: " ++ nodeBin,
    "stderr (tail):",
    tailLine tailRead,
    "",
    "See logs in: " ++ logsDir ]

/-- The sequence of Gateway states broadcast by the `app.whenReady()`
startup flow, as a function of whether `waitForPortOpen` succeeded within
the 30 s deadline (`portOpened`) and of the stderr tail captured by the
ring buffer at failure time (`tailRead`).  The flow broadcasts
`starting` right after spawning, then exactly one of `ready` / `failed`. -/
def startupBroadcasts (port : Int) (logsDir url token openclawDir nodeBin : String)
    (portOpened : Bool) (tailRead : String) : List GatewayState :=
  let st := GatewayState.starting port logsDir token
  if portOpened then
    [st, GatewayState.ready port logsDir url token]
  else
    [st, GatewayState.failed port logsDir
      (joinNl (failedDetailsLines openclawDir nodeBin logsDir tailRead)) token]

/-! ## Two-phase stop (`stopGatewayChild`)

Node.js semantics of `ChildProcess`: `child.kill(sig)` delivers `sig` and,
when delivery succeeds, sets the `killed` property to `true`.  The
`killed` property records only that *a signal was successfully sent*; it
says nothing about whether the process has exited.  We model one run of
`stopGatewayChild` on a live child by two environment facts:
`termDelivered` — `child.kill("SIGTERM")` succeeded (did not throw and
returned having sent the signal) — and `aliveAfterGrace` — the process is
still running once the 1.5 s grace sleep elapses. -/

structure StopTrace where
  sentSigterm : Bool
  killedFlagAfterTerm : Bool
  sentSigkill : Bool
  deriving Repr, DecidableEq

/-- `stopGatewayChild` on a live child: send SIGTERM (ignoring a throw),
sleep 1500 ms, then `if (!child.killed) child.kill("SIGKILL")`. -/
def stopGatewayChild (termDelivered aliveAfterGrace : Bool) : StopTrace :=
  let killedFlag := termDelivered
  { sentSigterm := termDelivered
    killedFlagAfterTerm := killedFlag
    sentSigkill := !killedFlag }

/-! ## Helper-binary execution (`runCommandWithTimeout` and IPC handlers) -/

structure ExecResult where
  ok : Bool
  code : Option Int
  stdout : String
  stderr : String
  resolvedPath : Option String
  deriving Repr, DecidableEq

/-- The template-literal append used on both the timeout and the error
path: `` `${stderr}${stderr.trim() ? "\n" : ""}${line}` ``. -/
def appendStderrLine (stderr line : String) : String :=
  stderr ++ (if jsTrim stderr = "" then "" else "\n") ++ line

/-- Result resolved by the timeout timer (after `child.kill("SIGKILL")`). -/
def timeoutResult (bin : String) (timeoutMs : Nat) (stdoutAcc stderrAcc : String) : ExecResult :=
  { ok := false
    code := none
    stdout := stdoutAcc
    stderr := appendStderrLine stderrAcc ("timeout after " ++ toString timeoutMs ++ "ms")
    resolvedPath := some bin }

/-- Result resolved by the child's `close` event (`ok: code === 0`,
`code: typeof code === "number" ? code : null`). -/
def closeResult (bin : String) (stdoutAcc stderrAcc : String) (code : Option Int) : ExecResult :=
  { ok := code = some 0
    code := code
    stdout := stdoutAcc
    stderr := stderrAcc
    resolvedPath := some bin }

/-- Result resolved by the child's `error` event (e.g. a missing binary:
`spawn ENOENT`), with `String(err)` appended to the captured stderr. -/
def errorResult (bin : String) (stdoutAcc stderrAcc errMsg : String) : ExecResult :=
  { ok := false
    code := none
    stdout := stdoutAcc
    stderr := appendStderrLine stderrAcc errMsg
    resolvedPath := some bin }

/-- The asynchronous events that can reach the promise executor of
`runCommandWithTimeout` after the spawn: stdout/stderr `data` chunks, the
timeout timer, the child's `close`, and the child's `error`. -/
inductive ChildEvent where
  | stdoutData (chunk : String)
  | stderrData (chunk : String)
  | timerFired
  | closeEvt (code : Option Int)
  | errorEvt (msg : String)
  deriving Repr, DecidableEq

/-- The executor's mutable state: the accumulated `stdout`/`stderr`
strings, the `settled` flag, the value `resolve` was called with (if
any), and whether `clearTimeout(timer)` has run. -/
structure ExecState where
  stdoutAcc : String
  stderrAcc : String
  settled : Bool
  resolvedWith : Option ExecResult
  timerCleared : Bool
  sigkillSent : Bool
  deriving Repr, DecidableEq

def initExecState : ExecState :=
  { stdoutAcc := "", stderrAcc := "", settled := false,
    resolvedWith := none, timerCleared := false, sigkillSent := false }

/-- `settle(result)`: resolve the promise unless already settled; also
detaches the data listeners, which we record via the `settled` flag. -/
def settleExec (st : ExecState) (r : ExecResult) : ExecState :=
  if st.settled then st
  else { st with settled := true, resolvedWith := some r }

/-- One event delivered to the `runCommandWithTimeout` executor.  `data`
listeners are detached once settled; `close`/`error` call `clearTimeout`
before settling; a cleared or already-fired timer never fires again. -/
def execStep (bin : String) (timeoutMs : Nat) (st : ExecState) : ChildEvent → ExecState
  | .stdoutData c => if st.settled then st else { st with stdoutAcc := st.stdoutAcc ++ c }
  | .stderrData c => if st.settled then st else { st with stderrAcc := st.stderrAcc ++ c }
  | .timerFired =>
    if st.timerCleared then st
    else settleExec { st with sigkillSent := true }
      (timeoutResult bin timeoutMs st.stdoutAcc st.stderrAcc)
  | .closeEvt code =>
    settleExec { st with timerCleared := true } (closeResult bin st.stdoutAcc st.stderrAcc code)
  | .errorEvt msg =>
    settleExec { st with timerCleared := true } (errorResult bin st.stdoutAcc st.stderrAcc msg)

/-- Running the executor over a whole sequence of delivered events. -/
def execRun (bin : String) (timeoutMs : Nat) (st : ExecState) (evts : List ChildEvent) : ExecState :=
  evts.foldl (execStep bin timeoutMs) st

/-- A settling event: one of the three events that resolve the promise. -/
def settling : ChildEvent → Bool
  | .timerFired => true
  | .closeEvt _ => true
  | .errorEvt _ => true
  | _ => false

/-- The result the executor resolves with when event `e` is the first
settling event, given the output accumulated so far. -/
def firstSettleResult (bin : String) (timeoutMs : Nat) (outAcc errAcc : String) :
    ChildEvent → Option ExecResult
  | .timerFired => some (timeoutResult bin timeoutMs outAcc errAcc)
  | .closeEvt code => some (closeResult bin outAcc errAcc code)
  | .errorEvt msg => some (errorResult bin outAcc errAcc msg)
  | _ => none

/-- The `memo-check` IPC handler: missing binary short-circuits with a
diagnostic `ExecResult`; otherwise `spawnSync(memoBin, ["--help"])` and
`ok: res.status === 0`. -/
def memoCheck (memoBin : String) (binPresent : Bool) (status : Option Int)
    (stdout stderr : String) : ExecResult :=
  if !binPresent then
    { ok := false
      code := none
      stdout := ""
      stderr := "memo binary not found at: " ++ memoBin ++
        "\nRun: cd apps/electron-desktop && npm run prepare:memo:all"
      resolvedPath := none }
  else
    { ok := status = some 0
      code := status
      stdout := stdout
      stderr := stderr
      resolvedPath := some memoBin }

/-- The result of `runCommandWithTimeout` summarised by the first settling
event (`ExecOutcome`): this is what `remindctl-authorize`,
`remindctl-today-json` and the gog flows receive. -/
inductive ExecOutcome where
  | timedOut
  | closed (code : Option Int)
  | errored (msg : String)
  deriving Repr, DecidableEq

def runCommandWithTimeout (bin : String) (timeoutMs : Nat) (stdoutAcc stderrAcc : String) :
    ExecOutcome → ExecResult
  | .timedOut => timeoutResult bin timeoutMs stdoutAcc stderrAcc
  | .closed code => closeResult bin stdoutAcc stderrAcc code
  | .errored msg => errorResult bin stdoutAcc stderrAcc msg

/-- The `remindctl-authorize` IPC handler: missing binary short-circuits,
otherwise `runCommandWithTimeout(remindctlBin, ["authorize"], 120 s)`. -/
def remindctlAuthorize (remindctlBin : String) (binPresent : Bool)
    (stdoutAcc stderrAcc : String) (outcome : ExecOutcome) : ExecResult :=
  if !binPresent then
    { ok := false
      code := none
      stdout := ""
      stderr := "remindctl binary not found at: " ++ remindctlBin ++
        "\nRun: cd apps/electron-desktop && npm run prepare:remindctl:all"
      resolvedPath := none }
  else
    runCommandWithTimeout remindctlBin 120000 stdoutAcc stderrAcc outcome

/-! ## Configuration snapshots and the onboarding flows (`WelcomePage`) -/

/-- The `config.get` snapshot as the renderer sees it.  Field values are
kept as raw `Json` because the flows re-validate their types (`typeof`
checks) before use. -/
structure ConfigSnapshot where
  path : Option String
  existsFlag : Bool
  hash : Option Json
  config : Option Json

/-- The repeated base-hash read:
`typeof snap.hash === "string" && snap.hash.trim() ? snap.hash.trim() : null`. -/
def baseHashOf (snap : ConfigSnapshot) : Option String :=
  match snap.hash with
  | some (.jstr s) => if jsTrim s = "" then none else some (jsTrim s)
  | _ => none

/-- The error message thrown by every flow when the base hash is absent. -/
def baseHashMissingMsg : String := "Config base hash missing. Reload and try again."

/-- The gateway RPC requests a flow can issue (the JSON documents the code
serialises with `JSON.stringify` are kept structured). -/
inductive RpcCall where
  | configSet (raw : Json)
  | configPatch (baseHash : String) (raw : Json) (note : String)
  | channelsStatus (probe : Bool) (timeoutMs : Nat)
  deriving Repr

def RpcCall.isPatch : RpcCall → Bool
  | .configPatch _ _ _ => true
  | _ => false

def RpcCall.patchBaseHash : RpcCall → Option String
  | .configPatch h _ _ => some h
  | _ => none

/-- The gateway RPC calls issued by a flow run, or the message of the
error it threw before issuing anything. -/
def FlowResult := Except String (List RpcCall)

/-- Helper: last index of a separator character, JS
`String.prototype.lastIndexOf` restricted to the one-character needles the
code uses (`"\\"` or `"/"`). -/
def lastIdxAux : List Char → Char → Int → Int → Int
  | [], _, _, best => best
  | x :: xs, c, i, best => lastIdxAux xs c (i + 1) (if x = c then i else best)

def lastIndexOfChar (s : String) (c : Char) : Int :=
  lastIdxAux s.data c 0 (-1)

/-- `inferWorkspaceDirFromConfigPath` from the onboarding source. -/
def inferWorkspaceDirFromConfigPath (configPath : Option String) : String :=
  let raw := match configPath with
    | some s => jsTrim s
    | none => ""
  if raw = "" then "~/openclaw-workspace"
  else
    let sepChar : Char := if jsContainsChar raw '\\' then '\\' else '/'
    let idx := lastIndexOfChar raw sepChar
    if idx ≤ 0 then "~/openclaw-workspace"
    else jsTakeChars raw idx.toNat ++ String.singleton sepChar ++ "workspace"

/-- The `state` prop of the welcome page: the supervisor's `ready` state
fields the flow reads (`state.port`, `state.token`). -/
structure ReadyInfo where
  port : Int
  token : String

/-- The pieces of `ensureExtendedConfig` that read the current gateway
section of the snapshot's config document. -/
def cfgFieldsOf (snap : ConfigSnapshot) : List (String × Json) :=
  getObject snap.config

def gatewayFieldsOf (snap : ConfigSnapshot) : List (String × Json) :=
  getObject (jget (cfgFieldsOf snap) "gateway")

def gatewayAuthFieldsOf (snap : ConfigSnapshot) : List (String × Json) :=
  getObject (jget (gatewayFieldsOf snap) "auth")

def agentsFieldsOf (snap : ConfigSnapshot) : List (String × Json) :=
  getObject (jget (cfgFieldsOf snap) "agents")

def agentDefaultsFieldsOf (snap : ConfigSnapshot) : List (String × Json) :=
  getObject (jget (agentsFieldsOf snap) "defaults")

/-- `needsGateway` from `ensureExtendedConfig`: the current gateway block
already carries local/loopback/this-port/token auth. -/
def needsGateway (st : ReadyInfo) (snap : ConfigSnapshot) : Bool :=
  let gateway := gatewayFieldsOf snap
  let gatewayAuth := gatewayAuthFieldsOf snap
  strTrimOf (jget gateway "mode") ≠ "local" ∨
    strTrimOf (jget gateway "bind") ≠ "loopback" ∨
    numOf (jget gateway "port") ≠ some st.port ∨
    strTrimOf (jget gatewayAuth "mode") ≠ "token" ∨
    strTrimOf (jget gatewayAuth "token") ≠ st.token

/-- The replacement `gateway` block:
`{ ...gateway, mode, bind, port, auth: { ...gatewayAuth, mode, token } }`. -/
def gatewayPatchValue (st : ReadyInfo) (snap : ConfigSnapshot) : Json :=
  .jobj (objSpread (gatewayFieldsOf snap)
    [ ("mode", .jstr "local"),
      ("bind", .jstr "loopback"),
      ("port", .jnum st.port),
      ("auth", .jobj (objSpread (gatewayAuthFieldsOf snap)
        [("mode", .jstr "token"), ("token", .jstr st.token)])) ])

/-- `currentWorkspace` / `workspace` from `ensureExtendedConfig`. -/
def currentWorkspaceOf (snap : ConfigSnapshot) : String :=
  strTrimOf (jget (agentDefaultsFieldsOf snap) "workspace")

def workspaceOf (snap : ConfigSnapshot) : String :=
  if currentWorkspaceOf snap = "" then inferWorkspaceDirFromConfigPath snap.path
  else currentWorkspaceOf snap

/-- The `patch` object assembled by `ensureExtendedConfig` (key order:
`gateway`, then `agents`). -/
def ensurePatch (st : ReadyInfo) (snap : ConfigSnapshot) : List (String × Json) :=
  (if needsGateway st snap then [("gateway", gatewayPatchValue st snap)] else []) ++
    (if currentWorkspaceOf snap = "" then
      [("agents", .jobj (objSpread (agentsFieldsOf snap)
        [("defaults", .jobj (objSpread (agentDefaultsFieldsOf snap)
          [("workspace", .jstr (workspaceOf snap))]))]))]
    else [])

/-- The seeded document `{ ...cfg, ...patch }` written on first run. -/
def seededConfig (st : ReadyInfo) (snap : ConfigSnapshot) : List (String × Json) :=
  objSpread (cfgFieldsOf snap) (ensurePatch st snap)

/-- `ensureExtendedConfig`: seed a full document via `config.set` when the
config does not exist; do nothing when the patch is empty; otherwise
require the snapshot's hash and issue one `config.patch`. -/
def ensureExtendedConfig (st : ReadyInfo) (snap : ConfigSnapshot) : FlowResult :=
  if snap.existsFlag = false then
    .ok [RpcCall.configSet (.jobj (seededConfig st snap))]
  else if (ensurePatch st snap).isEmpty then
    .ok []
  else
    match baseHashOf snap with
    | none => .error baseHashMissingMsg
    | some h =>
      .ok [RpcCall.configPatch h (.jobj (ensurePatch st snap))
        "Welcome: ensure onboarding defaults (workspace/gateway)"]

/-- `saveApiKey` (gateway-RPC part, after the IPC keychain write): an
empty key returns without issuing anything; otherwise the flow requires
the snapshot hash and issues one `config.patch` enabling the api_key
profile. -/
def saveApiKey (provider apiKey : String) (snap : ConfigSnapshot) : FlowResult :=
  if jsTrim apiKey = "" then .ok []
  else
    match baseHashOf snap with
    | none => .error baseHashMissingMsg
    | some h =>
      let profileId := provider ++ ":default"
      .ok [RpcCall.configPatch h
        (.jobj [ ("auth", .jobj
          [ ("profiles", .jobj [(profileId, .jobj
              [("provider", .jstr provider), ("mode", .jstr "api_key")])]),
            ("order", .jobj [(provider, .jarr [.jstr profileId])]) ]) ])
        ("Welcome: enable " ++ provider ++ " api_key profile")]

/-- `saveDefaultModel`. -/
def saveDefaultModel (modelId : String) (snap : ConfigSnapshot) : FlowResult :=
  match baseHashOf snap with
  | none => .error baseHashMissingMsg
  | some h =>
    .ok [RpcCall.configPatch h
      (.jobj [("agents", .jobj [("defaults", .jobj
        [ ("model", .jobj [("primary", .jstr modelId)]),
          ("models", .jobj [(modelId, .jobj [])]) ])])])
      "Welcome: set default model"]

/-- `saveTelegramToken`. -/
def saveTelegramToken (telegramToken : String) (snap : ConfigSnapshot) : FlowResult :=
  let token := jsTrim telegramToken
  if token = "" then .ok []
  else
    match baseHashOf snap with
    | none => .error baseHashMissingMsg
    | some h =>
      .ok [RpcCall.configPatch h
        (.jobj [("channels", .jobj [("telegram", .jobj
          [("enabled", .jbool true), ("botToken", .jstr token)])])])
        "Welcome: configure Telegram bot token"]

/-- `raw.replace(/^(telegram|tg):/i, "")` — strip one case-insensitive
`telegram:`/`tg:` tag at the start (the regex alternation can only match
one of them at position 0). -/
def stripTelegramTag (raw : String) : String :=
  if jsStartsWith (jsToLower raw) "telegram:" then jsDropChars raw 9
  else if jsStartsWith (jsToLower raw) "tg:" then jsDropChars raw 3
  else raw

/-- `/^\d+$/.test(s)`. -/
def allDigits (s : String) : Bool :=
  s ≠ "" ∧ s.data.all (fun c => c.isDigit)

/-- The ID normalisation in `saveTelegramAllowFrom`: strip the tag and
trim; keep the stripped form only when it is purely numeric, otherwise
fall back to the raw (trimmed) input. -/
def normalizeTelegramId (raw : String) : String :=
  let stripped := jsTrim (stripTelegramTag raw)
  if allDigits stripped then stripped else raw

/-- The merged allow-list of `saveTelegramAllowFrom`:
`unique([...allowFrom, id])`. -/
def mergedAllowFrom (existing : List String) (id : String) : List String :=
  unique (existing ++ [id])

/-- The existing allow-list read from the snapshot:
`getStringArray(getObject(getObject(cfg.channels).telegram).allowFrom)`. -/
def allowFromOf (snap : ConfigSnapshot) : List String :=
  getStringArray (jget (getObject (jget (getObject (jget (cfgFieldsOf snap) "channels"))
    "telegram")) "allowFrom")

/-- `saveTelegramAllowFrom`: empty input returns without issuing anything;
otherwise the flow requires the snapshot hash, issues one `config.patch`
with the merged allow-list, and then fires a best-effort
`channels.status` probe. -/
def saveTelegramAllowFrom (telegramUserId : String) (snap : ConfigSnapshot) : FlowResult :=
  let raw := jsTrim telegramUserId
  if raw = "" then .ok []
  else
    let id := normalizeTelegramId raw
    let merged := mergedAllowFrom (allowFromOf snap) id
    match baseHashOf snap with
    | none => .error baseHashMissingMsg
    | some h =>
      .ok [ RpcCall.configPatch h
          (.jobj [("channels", .jobj [("telegram", .jobj
            [ ("enabled", .jbool true),
              ("dmPolicy", .jstr "allowlist"),
              ("allowFrom", .jarr (merged.map Json.jstr)) ])])])
          "Welcome: configure Telegram allowFrom",
        RpcCall.channelsStatus true 12000 ]

/-- `ensureGogExecDefaults`: requires the snapshot hash before reading the
`tools.exec` block, then issues one `config.patch`. -/
def ensureGogExecDefaults (snap : ConfigSnapshot) : FlowResult :=
  match baseHashOf snap with
  | none => .error baseHashMissingMsg
  | some h =>
    let exec := getObject (jget (getObject (jget (cfgFieldsOf snap) "tools")) "exec")
    let existingSafeBins := getStringArray (jget exec "safeBins")
    let safeBins := unique ((existingSafeBins ++ ["gog"]).map (fun v => jsToLower v))
    let host := if strTrimOf (jget exec "host") = "" then "gateway"
      else strTrimOf (jget exec "host")
    let security := if strTrimOf (jget exec "security") = "" then "allowlist"
      else strTrimOf (jget exec "security")
    let ask := if strTrimOf (jget exec "ask") = "" then "on-miss"
      else strTrimOf (jget exec "ask")
    .ok [RpcCall.configPatch h
      (.jobj [("tools", .jobj [("exec", .jobj
        [ ("host", .jstr host),
          ("security", .jstr security),
          ("ask", .jstr ask),
          ("safeBins", .jarr (safeBins.map Json.jstr)) ])])])
      "Welcome: ensure gog exec defaults"]

/-! ## The Gateway's server-side `config.patch` apply (spec-modelled) -/

-- Deep merge, modelled from the spec: nested objects merge key-by-key
-- recursively; non-object values (including arrays) replace wholesale.
mutual

def deepMerge : Json → Json → Json
  | .jobj base, .jobj patch => .jobj (deepMergeFields base patch)
  | _, patchVal => patchVal

def deepMergeFields : List (String × Json) → List (String × Json) → List (String × Json)
  | base, [] => base
  | base, (k, v) :: rest =>
    let mergedVal := match jget base k with
      | some (.jobj oldFields) => deepMerge (.jobj oldFields) v
      | _ => v
    deepMergeFields (objSet base k mergedVal) rest

end

/-- Modelled from the spec: the Gateway's persisted configuration state —
the structured document plus its content fingerprint (`hash` is valid
only until the document changes).  The fingerprint function itself is a
parameter; no theorem below depends on its choice. -/
structure GatewayConfigStore where
  config : Json
  hash : String

/-- Modelled from the spec: the distinct rejection errors of the
`config.patch` protocol ("base hash missing/stale"). -/
inductive PatchError where
  | baseHashMissing
  | staleBaseHash
  deriving Repr, DecidableEq

/-- Modelled from the spec: the Gateway's `config.patch` apply (the RPC
server side is not in the provided sources).  A patch is accepted only
when its `baseHash` equals the configuration's current hash at apply
time; otherwise it is rejected with a distinct error and no mutation
occurs.  On success the patch document is deep-merged and the fingerprint
recomputed. -/
def applyConfigPatch (hashOf : Json → String) (store : GatewayConfigStore)
    (baseHash : Option String) (raw : Json) : GatewayConfigStore × Except PatchError Unit :=
  match baseHash with
  | none => (store, .error .baseHashMissing)
  | some h =>
    if h = store.hash then
      let merged := deepMerge store.config raw
      ({ config := merged, hash := hashOf merged }, .ok ())
    else (store, .error .staleBaseHash)

/-! ## Chat streaming: the `ChatPage` event handler and the chat slice -/

/-- A push event as received by `gw.onEvent` — the envelope kind plus the
`ChatEvent` payload fields. -/
structure ChatEventRec where
  event : String
  runId : String
  sessionKey : String
  seq : Int
  state : String
  message : Option Json
  errorMessage : Option String

/-- Modelled from the spec: `extractText` from the chat slice (the Redux
slice source is not provided; the spec describes the extraction).  A
segment contributes its text only when it is a text-typed object. -/
def segText : Json → String
  | .jobj f =>
    match jget f "type", jget f "text" with
    | some (.jstr "text"), some (.jstr t) => t
    | _, _ => ""
  | _ => ""

/-- Modelled from the spec: a literal string payload is used verbatim; a
structured document contributes the concatenation of the text-typed,
non-empty segments of its content list, in order; anything else yields
the empty string. -/
def extractText : Option Json → String
  | some (.jstr s) => s
  | some (.jobj fields) =>
    match jget fields "content" with
    | some (.jarr segs) => String.join (segs.map segText)
    | _ => ""
  | _ => ""

/-- The Redux actions dispatched by the `ChatPage` event handler.  The
payload shapes are fixed by the dispatch call sites in the source: the
delta action carries only `runId` and `text` — no sequence number. -/
inductive ChatAction where
  | streamDeltaReceived (runId : String) (text : String)
  | streamFinalReceived (runId : String) (seq : Int) (text : String)
  | streamErrorReceived (runId : String) (errorMessage : Option String)
  | streamAborted (runId : String)
  deriving Repr

/-- The `gw.onEvent` handler of `ChatPage`: ignore non-chat events and
other sessions, then dispatch per payload state. -/
def onChatEvent (sessionKey : String) (e : ChatEventRec) : Option ChatAction :=
  if e.event ≠ "chat" then none
  else if e.sessionKey ≠ sessionKey then none
  else if e.state = "delta" then
    some (.streamDeltaReceived e.runId (extractText e.message))
  else if e.state = "final" then
    some (.streamFinalReceived e.runId e.seq (extractText e.message))
  else if e.state = "error" then
    some (.streamErrorReceived e.runId e.errorMessage)
  else if e.state = "aborted" then
    some (.streamAborted e.runId)
  else none

/-- One active streaming run. -/
structure RunStream where
  runId : String
  text : String
  deriving Repr, DecidableEq

/-- A committed transcript message. -/
structure ChatMessage where
  id : String
  role : String
  text : String
  pending : Bool
  deriving Repr, DecidableEq

/-- The chat slice state: committed messages plus the active runs. -/
structure ChatState where
  messages : List ChatMessage
  streamByRun : List RunStream
  errorMsg : Option String
  deriving Repr, DecidableEq

def ChatState.runTextOf (st : ChatState) (runId : String) : Option String :=
  (st.streamByRun.find? (fun r => r.runId = runId)).map (fun r => r.text)

/-- Modelled from the spec: the `streamDeltaReceived` reducer.  Its
payload is fixed by the dispatch site in the source to `runId` and `text`
only, so the reducer appends the extracted text to the run's accumulator
(creating the run on the first delta for an unseen `runId`); with no
sequence number in the payload it has nothing to gate duplicates on. -/
def streamDeltaReceived (st : ChatState) (runId text : String) : ChatState :=
  { st with streamByRun :=
      (if st.streamByRun.any (fun r => r.runId = runId) then
        st.streamByRun.map
          (fun r => if r.runId = runId then { r with text := r.text ++ text } else r)
      else st.streamByRun ++ [{ runId := runId, text := text }]) }

/-- Modelled from the spec: `streamFinalReceived` commits the accumulated
(or event-supplied) text as one assistant message and removes the run
from the active set; a final for a run no longer active appends nothing
twice (idempotence). -/
def streamFinalReceived (st : ChatState) (runId : String) (seq : Int) (text : String) : ChatState :=
  match st.streamByRun.find? (fun r => r.runId = runId) with
  | some r =>
    let committed := if text = "" then r.text else text
    { st with
      messages := st.messages ++
        [{ id := runId, role := "assistant", text := committed, pending := false }]
      streamByRun := st.streamByRun.filter (fun r => r.runId ≠ runId) }
  | none => st

/-- Modelled from the spec: `streamErrorReceived` removes the run without
a transcript entry and surfaces a transient error. -/
def streamErrorReceived (st : ChatState) (runId : String) (errorMessage : Option String) : ChatState :=
  { st with
    streamByRun := st.streamByRun.filter (fun r => r.runId ≠ runId)
    errorMsg := errorMessage }

/-- Modelled from the spec: `streamAborted` removes the run silently. -/
def streamAborted (st : ChatState) (runId : String) : ChatState :=
  { st with streamByRun := st.streamByRun.filter (fun r => r.runId ≠ runId) }

def applyChatAction (st : ChatState) : ChatAction → ChatState
  | .streamDeltaReceived runId text => streamDeltaReceived st runId text
  | .streamFinalReceived runId seq text => streamFinalReceived st runId seq text
  | .streamErrorReceived runId errorMessage => streamErrorReceived st runId errorMessage
  | .streamAborted runId => streamAborted st runId

/-- End-to-end: one event delivered to the `ChatPage` handler and folded
into the chat state. -/
def applyChatEvent (sessionKey : String) (st : ChatState) (e : ChatEventRec) : ChatState :=
  match onChatEvent sessionKey e with
  | some a => applyChatAction st a
  | none => st

/-! ## Window lifecycle and state broadcast (main-process `index.ts`) -/

/-- A renderer window, with the `gateway-state` messages its web contents
received, in order. -/
structure RendererWindow where
  winId : Nat
  destroyed : Bool
  received : List GatewayState
  deriving Repr, DecidableEq

/-- The module-level mutable state of the main process that the broadcast
and window logic touches. -/
structure MainModuleState where
  mainWindow : Option RendererWindow
  gatewayState : Option GatewayState
  preloadSet : Bool
  rendererSet : Bool
  deriving Repr, DecidableEq

/-- `broadcastGatewayState(win, state)`: record the state as the last
known one, then `win?.webContents.send("gateway-state", state)` (a send
to a destroyed window throws and is swallowed). -/
def sendToWindow (win : Option RendererWindow) (s : GatewayState) : Option RendererWindow :=
  win.map (fun w => if w.destroyed then w else { w with received := w.received ++ [s] })

def broadcastGatewayState (last : Option GatewayState) (win : Option RendererWindow)
    (s : GatewayState) : Option GatewayState × Option RendererWindow :=
  (some s, sendToWindow win s)

/-- `ensureMainWindow()`: reuse a live window; bail out when the preload
or renderer paths are not staged yet; otherwise create a fresh window and
immediately replay the last known Gateway state to it (when one exists)
before returning. -/
def ensureMainWindowCreate (ms : MainModuleState) (freshId : Nat) :
    MainModuleState × Option RendererWindow :=
  if ¬ms.preloadSet ∨ ¬ms.rendererSet then (ms, none)
  else
    let newWin : RendererWindow := { winId := freshId, destroyed := false, received := [] }
    match ms.gatewayState with
    | some s =>
      let res := broadcastGatewayState ms.gatewayState (some newWin) s
      ({ ms with mainWindow := res.2, gatewayState := res.1 }, res.2)
    | none => ({ ms with mainWindow := some newWin }, some newWin)

def ensureMainWindow (ms : MainModuleState) (freshId : Nat) :
    MainModuleState × Option RendererWindow :=
  match ms.mainWindow with
  | some w =>
    if ¬w.destroyed then (ms, some w)
    else ensureMainWindowCreate ms freshId
  | none => ensureMainWindowCreate ms freshId

/-! ## Helper lemmas for the exec event machine -/

def isDataEvt : ChildEvent → Bool
  | .stdoutData _ => true
  | .stderrData _ => true
  | _ => false

/-- Stdout accumulated over a sequence of data events. -/
def outAccOf : List ChildEvent → String
  | [] => ""
  | .stdoutData c :: es => c ++ outAccOf es
  | _ :: es => outAccOf es

/-- Stderr accumulated over a sequence of data events. -/
def errAccOf : List ChildEvent → String
  | [] => ""
  | .stderrData c :: es => c ++ errAccOf es
  | _ :: es => errAccOf es

theorem execRun_data (bin : String) (t : Nat) (st : ExecState) (pre : List ChildEvent)
    (hs : st.settled = false) (hd : ∀ e ∈ pre, isDataEvt e = true) :
    execRun bin t st pre =
      { st with stdoutAcc := st.stdoutAcc ++ outAccOf pre,
                stderrAcc := st.stderrAcc ++ errAccOf pre } := by
  induction pre generalizing st with
  | nil => simp [execRun, outAccOf, errAccOf]
  | cons e es ih =>
    have hde : isDataEvt e = true := hd e (by simp)
    have hdes : ∀ x ∈ es, isDataEvt x = true := fun x hx => hd x (by simp [hx])
    cases e with
    | stdoutData c =>
      have : execRun bin t st (ChildEvent.stdoutData c :: es) =
          execRun bin t { st with stdoutAcc := st.stdoutAcc ++ c } es := by
        simp [execRun, execStep, hs]
      rw [this, ih { st with stdoutAcc := st.stdoutAcc ++ c } hs hdes]
      simp [outAccOf, errAccOf, String.append_assoc]
    | stderrData c =>
      have : execRun bin t st (ChildEvent.stderrData c :: es) =
          execRun bin t { st with stderrAcc := st.stderrAcc ++ c } es := by
        simp [execRun, execStep, hs]
      rw [this, ih { st with stderrAcc := st.stderrAcc ++ c } hs hdes]
      simp [outAccOf, errAccOf, String.append_assoc]
    | timerFired => simp [isDataEvt] at hde
    | closeEvt code => simp [isDataEvt] at hde
    | errorEvt msg => simp [isDataEvt] at hde

/-- The executor state after a prefix of data-only events. -/
def preState (pre : List ChildEvent) : ExecState :=
  { stdoutAcc := outAccOf pre, stderrAcc := errAccOf pre, settled := false,
    resolvedWith := none, timerCleared := false, sigkillSent := false }

theorem execRun_data_init (bin : String) (t : Nat) (pre : List ChildEvent)
    (hd : ∀ e ∈ pre, isDataEvt e = true) :
    execRun bin t initExecState pre = preState pre := by
  rw [execRun_data bin t initExecState pre rfl hd]
  rfl

theorem execStep_settled (bin : String) (t : Nat) (st : ExecState) (e : ChildEvent)
    (h : st.settled = true) :
    (execStep bin t st e).settled = true ∧
      (execStep bin t st e).resolvedWith = st.resolvedWith := by
  cases e <;> simp [execStep, settleExec, h, apply_ite]

theorem execRun_settled (bin : String) (t : Nat) (st : ExecState) (evts : List ChildEvent)
    (h : st.settled = true) :
    (execRun bin t st evts).settled = true ∧
      (execRun bin t st evts).resolvedWith = st.resolvedWith := by
  induction evts generalizing st with
  | nil => simp [execRun, h]
  | cons e es ih =>
    have hstep := execStep_settled bin t st e h
    have : execRun bin t st (e :: es) = execRun bin t (execStep bin t st e) es := by
      simp [execRun]
    rw [this]
    have := ih (execStep bin t st e) hstep.1
    exact ⟨this.1, this.2.trans hstep.2⟩

theorem execStep_sigkill_mono (bin : String) (t : Nat) (st : ExecState) (e : ChildEvent)
    (h : st.sigkillSent = true) : (execStep bin t st e).sigkillSent = true := by
  cases e with
  | stdoutData c => by_cases hs : st.settled <;> simp [execStep, hs, h]
  | stderrData c => by_cases hs : st.settled <;> simp [execStep, hs, h]
  | timerFired =>
    by_cases htc : st.timerCleared
    · simp [execStep, htc, h]
    · by_cases hs : st.settled <;> simp [execStep, settleExec, htc, hs, h]
  | closeEvt code => by_cases hs : st.settled <;> simp [execStep, settleExec, hs, h]
  | errorEvt msg => by_cases hs : st.settled <;> simp [execStep, settleExec, hs, h]

theorem execRun_sigkill_mono (bin : String) (t : Nat) (st : ExecState) (evts : List ChildEvent)
    (h : st.sigkillSent = true) : (execRun bin t st evts).sigkillSent = true := by
  induction evts generalizing st with
  | nil => simpa [execRun] using h
  | cons e es ih =>
    have : execRun bin t st (e :: es) = execRun bin t (execStep bin t st e) es := by
      simp [execRun]
    rw [this]
    exact ih _ (execStep_sigkill_mono bin t st e h)

theorem execStep_first_settle (bin : String) (t : Nat) (st : ExecState) (e : ChildEvent)
    (hs : st.settled = false) (ht : st.timerCleared = false) (he : settling e = true) :
    (execStep bin t st e).settled = true ∧
      (execStep bin t st e).resolvedWith =
        firstSettleResult bin t st.stdoutAcc st.stderrAcc e := by
  cases e <;> simp [settling] at he <;>
    simp [execStep, settleExec, firstSettleResult, hs, ht]

/-! ## Theorems for the supervisor claims -/

/-- C2: on every startup of the Gateway supervisor, if the TCP probe of
the chosen port succeeds within the 30 s deadline the broadcast state
sequence is exactly `starting, ready`; if it does not, the sequence is
exactly `starting, failed`, and the `details` field of the failed state
contains (as one of its joined lines) the captured stderr tail — trimmed,
with `"<empty>"` standing in for a blank tail. -/
theorem startup_state_sequence (port : Int)
    (logsDir url token openclawDir nodeBin tailRead : String) :
    startupBroadcasts port logsDir url token openclawDir nodeBin true tailRead =
      [GatewayState.starting port logsDir token,
       GatewayState.ready port logsDir url token] ∧
    ∃ a b, startupBroadcasts port logsDir url token openclawDir nodeBin false tailRead =
      [GatewayState.starting port logsDir token,
       GatewayState.failed port logsDir (a ++ tailLine tailRead ++ b) token] := by
  refine ⟨by simp [startupBroadcasts], ?_⟩
  have hmem : tailLine tailRead ∈
      failedDetailsLines openclawDir nodeBin logsDir tailRead := by
    simp [failedDetailsLines]
  obtain ⟨a, b, hab⟩ := joinNl_mem _ _ hmem
  exact ⟨a, b, by simp [startupBroadcasts, hab]⟩

/-- C3: the two-phase stop is broken for a child that survives SIGTERM.
Node's `ChildProcess.killed` is set to `true` as soon as *a signal was
successfully sent*; it does not mean the process exited.  So after a
successfully delivered SIGTERM the guard `if (!child.killed)` is always
false and SIGKILL is never sent — even to a child that is still alive
after the 1.5 s grace period.  The first two conjuncts evaluate the code
at the failing input (SIGTERM delivered, child still alive after the
grace window: no force-kill); the third shows the SIGKILL decision
depends only on whether the SIGTERM delivery succeeded, never on whether
the child is still alive. -/
theorem stopGatewayChild_never_kills_survivor :
    (stopGatewayChild true true).sentSigkill = false ∧
    (stopGatewayChild true true).killedFlagAfterTerm = true ∧
    ∀ termDelivered aliveAfterGrace,
      (stopGatewayChild termDelivered aliveAfterGrace).sentSigkill = !termDelivered := by
  refine ⟨rfl, rfl, ?_⟩
  intro termDelivered aliveAfterGrace
  rfl

/-! ## Theorems for the exec-helper claims -/

/-- C5: every helper-binary invocation returns an `ExecResult` (the
embedded handlers are total functions into `ExecResult`; the promise
executor only ever resolves).  `ok` is `true` exactly when the process
exited with code 0; a missing binary short-circuits with `ok = false` and
the missing-binary path message in `stderr`, and a non-zero exit, spawn
error or timeout yields `ok = false` with the captured stderr. -/
theorem exec_helpers_ok_iff_exit_zero (bin : String) (t : Nat)
    (stdoutAcc stderrAcc : String) (status : Option Int) (outcome : ExecOutcome) :
    ((runCommandWithTimeout bin t stdoutAcc stderrAcc outcome).ok = true ↔
      outcome = ExecOutcome.closed (some 0)) ∧
    ((memoCheck bin true status stdoutAcc stderrAcc).ok = true ↔ status = some 0) ∧
    (memoCheck bin false status stdoutAcc stderrAcc =
      { ok := false, code := none, stdout := "",
        stderr := "memo binary not found at: " ++ bin ++
          "\nRun: cd apps/electron-desktop && npm run prepare:memo:all",
        resolvedPath := none }) ∧
    ((remindctlAuthorize bin true stdoutAcc stderrAcc outcome).ok = true ↔
      outcome = ExecOutcome.closed (some 0)) ∧
    (remindctlAuthorize bin false stdoutAcc stderrAcc outcome =
      { ok := false, code := none, stdout := "",
        stderr := "remindctl binary not found at: " ++ bin ++
          "\nRun: cd apps/electron-desktop && npm run prepare:remindctl:all",
        resolvedPath := none }) := by
  refine ⟨?_, ?_, ?_, ?_, ?_⟩
  · cases outcome <;>
      simp [runCommandWithTimeout, timeoutResult, closeResult, errorResult]
  · simp [memoCheck]
  · simp [memoCheck]
  · cases outcome <;>
      simp [remindctlAuthorize, runCommandWithTimeout, timeoutResult, closeResult, errorResult]
  · simp [remindctlAuthorize]

/-- C8: when the timeout timer is the first settling event of
`runCommandWithTimeout` (the child produced only output chunks and never
closed within `timeoutMs`), the child is SIGKILLed and the promise
resolves with `ok = false`, `code = null`, and a stderr that is the
stderr captured so far with a final `"timeout after <timeoutMs>ms"` line
appended — so the invocation never blocks past its explicit timeout. -/
theorem runCommandWithTimeout_timeout_result (bin : String) (t : Nat)
    (pre post : List ChildEvent) (hpre : ∀ x ∈ pre, isDataEvt x = true) :
    (execRun bin t initExecState (pre ++ ChildEvent.timerFired :: post)).settled = true ∧
    (execRun bin t initExecState (pre ++ ChildEvent.timerFired :: post)).sigkillSent = true ∧
    ∃ r, (execRun bin t initExecState (pre ++ ChildEvent.timerFired :: post)).resolvedWith
        = some r ∧
      r.ok = false ∧ r.code = none ∧
      r.stderr = appendStderrLine (errAccOf pre)
        ("timeout after " ++ toString t ++ "ms") ∧
      ∃ a, r.stderr = a ++ ("timeout after " ++ toString t ++ "ms") := by
  have hsplit : execRun bin t initExecState (pre ++ ChildEvent.timerFired :: post) =
      execRun bin t
        (execStep bin t (execRun bin t initExecState pre) ChildEvent.timerFired) post := by
    simp [execRun, List.foldl_append]
  have hstep : execStep bin t (preState pre) ChildEvent.timerFired =
      { stdoutAcc := outAccOf pre, stderrAcc := errAccOf pre, settled := true,
        resolvedWith := some (timeoutResult bin t (outAccOf pre) (errAccOf pre)),
        timerCleared := false, sigkillSent := true } := by
    simp [execStep, settleExec, preState]
  rw [hsplit, execRun_data_init bin t pre hpre, hstep]
  have hsettled := execRun_settled bin t
    { stdoutAcc := outAccOf pre, stderrAcc := errAccOf pre, settled := true,
      resolvedWith := some (timeoutResult bin t (outAccOf pre) (errAccOf pre)),
      timerCleared := false, sigkillSent := true } post rfl
  have hkill := execRun_sigkill_mono bin t
    { stdoutAcc := outAccOf pre, stderrAcc := errAccOf pre, settled := true,
      resolvedWith := some (timeoutResult bin t (outAccOf pre) (errAccOf pre)),
      timerCleared := false, sigkillSent := true } post rfl
  refine ⟨hsettled.1, hkill, ?_⟩
  refine ⟨timeoutResult bin t (outAccOf pre) (errAccOf pre), hsettled.2, rfl, rfl, rfl, ?_⟩
  exact ⟨errAccOf pre ++ (if jsTrim (errAccOf pre) = "" then "" else "\n"), rfl⟩

/-- C8 witness: a concrete run — one stderr chunk, then the timer fires,
then the child's close event arrives too late. -/
theorem runCommandWithTimeout_timeout_result_witness :
    (execRun "remindctl" 5 initExecState
      [ChildEvent.stderrData "boom", ChildEvent.timerFired,
       ChildEvent.closeEvt (some 0)]).settled = true ∧
    (execRun "remindctl" 5 initExecState
      [ChildEvent.stderrData "boom", ChildEvent.timerFired,
       ChildEvent.closeEvt (some 0)]).sigkillSent = true ∧
    ∃ r, (execRun "remindctl" 5 initExecState
        [ChildEvent.stderrData "boom", ChildEvent.timerFired,
         ChildEvent.closeEvt (some 0)]).resolvedWith = some r ∧
      r.ok = false ∧ r.code = none ∧
      r.stderr = appendStderrLine (errAccOf [ChildEvent.stderrData "boom"])
        ("timeout after " ++ toString 5 ++ "ms") ∧
      ∃ a, r.stderr = a ++ ("timeout after " ++ toString 5 ++ "ms") := by
  have h := runCommandWithTimeout_timeout_result "remindctl" 5
    [ChildEvent.stderrData "boom"] [ChildEvent.closeEvt (some 0)]
    (by intro x hx; simp at hx; simp [hx, isDataEvt])
  exact h

/-- C10: the promise returned by `runCommandWithTimeout` settles exactly
once, with the result of whichever settling event (timeout, `close`,
`error`) is delivered first; any events delivered afterwards cannot
change the resolved value (the `settled` guard), and the executor only
ever resolves — it has no rejection path. -/
theorem runCommandWithTimeout_settles_once (bin : String) (t : Nat)
    (pre : List ChildEvent) (e : ChildEvent) (post : List ChildEvent)
    (hpre : ∀ x ∈ pre, isDataEvt x = true) (he : settling e = true) :
    (execRun bin t initExecState (pre ++ e :: post)).settled = true ∧
    (execRun bin t initExecState (pre ++ e :: post)).resolvedWith =
      firstSettleResult bin t (outAccOf pre) (errAccOf pre) e := by
  have hsplit : execRun bin t initExecState (pre ++ e :: post) =
      execRun bin t (execStep bin t (execRun bin t initExecState pre) e) post := by
    simp [execRun, List.foldl_append]
  have hstep := execStep_first_settle bin t (preState pre) e rfl rfl he
  rw [hsplit, execRun_data_init bin t pre hpre]
  have hrest := execRun_settled bin t (execStep bin t (preState pre) e) post hstep.1
  exact ⟨hrest.1, hrest.2.trans hstep.2⟩

/-- C10 witness: a concrete run — a stdout chunk, then `close(0)`, then a
late timer and a conflicting second close, which cannot change the
resolved value. -/
theorem runCommandWithTimeout_settles_once_witness :
    (execRun "gog" 99 initExecState
      [ChildEvent.stdoutData "hi", ChildEvent.closeEvt (some 0),
       ChildEvent.timerFired, ChildEvent.closeEvt (some 1)]).settled = true ∧
    (execRun "gog" 99 initExecState
      [ChildEvent.stdoutData "hi", ChildEvent.closeEvt (some 0),
       ChildEvent.timerFired, ChildEvent.closeEvt (some 1)]).resolvedWith =
      firstSettleResult "gog" 99 (outAccOf [ChildEvent.stdoutData "hi"])
        (errAccOf [ChildEvent.stdoutData "hi"]) (ChildEvent.closeEvt (some 0)) := by
  exact runCommandWithTimeout_settles_once "gog" 99 [ChildEvent.stdoutData "hi"]
    (ChildEvent.closeEvt (some 0)) [ChildEvent.timerFired, ChildEvent.closeEvt (some 1)]
    (by intro x hx; simp at hx; simp [hx, isDataEvt]) rfl

/-! ## Lemmas about `unique` and the allow-list merge -/

theorem foldl_uniqueStep_mem (l : List String) (acc : List String) (x : String) :
    x ∈ l.foldl uniqueStep acc ↔ x ∈ acc ∨ x ∈ l := by
  induction l generalizing acc with
  | nil => simp
  | cons a as ih =>
    simp only [List.foldl_cons]
    rw [ih]
    by_cases h : a ∈ acc
    · rw [uniqueStep, if_pos h]
      constructor
      · rintro (hx | hx)
        · exact Or.inl hx
        · exact Or.inr (List.mem_cons_of_mem a hx)
      · rintro (hx | hx)
        · exact Or.inl hx
        · rcases List.mem_cons.mp hx with rfl | hx
          · exact Or.inl h
          · exact Or.inr hx
    · rw [uniqueStep, if_neg h]
      simp only [List.mem_append, List.mem_singleton, List.mem_cons]
      tauto

theorem foldl_uniqueStep_nodup (l acc : List String) (h : acc.Nodup) :
    (l.foldl uniqueStep acc).Nodup := by
  induction l generalizing acc with
  | nil => simpa using h
  | cons a as ih =>
    simp only [List.foldl_cons]
    apply ih
    rw [uniqueStep]
    split
    · exact h
    · next hna => simp [List.nodup_append, h, hna]

theorem foldl_uniqueStep_sublist (l acc : List String) :
    List.Sublist (l.foldl uniqueStep acc) (acc ++ l) := by
  induction l generalizing acc with
  | nil => simp
  | cons a as ih =>
    simp only [List.foldl_cons]
    rw [uniqueStep]
    split
    · exact (ih acc).trans
        (List.Sublist.append_left (List.sublist_cons_self a as) acc)
    · have h := ih (acc ++ [a])
      have heq : (acc ++ [a]) ++ as = acc ++ a :: as := by simp
      rw [heq] at h
      exact h

theorem foldl_uniqueStep_eq_of_nodup (l acc : List String) (h : (acc ++ l).Nodup) :
    l.foldl uniqueStep acc = acc ++ l := by
  induction l generalizing acc with
  | nil => simp
  | cons a as ih =>
    have hna : a ∉ acc := by
      intro hmem
      exact (List.nodup_append.mp h).2.2 hmem (List.mem_cons_self a as)
    simp only [List.foldl_cons]
    rw [uniqueStep, if_neg hna, ih (acc ++ [a]) (by simpa using h)]
    simp

theorem unique_mem (l : List String) (x : String) : x ∈ unique l ↔ x ∈ l := by
  simp [unique, foldl_uniqueStep_mem]

theorem unique_nodup (l : List String) : (unique l).Nodup :=
  foldl_uniqueStep_nodup l [] (by simp)

theorem unique_sublist (l : List String) : List.Sublist (unique l) l := by
  simpa using foldl_uniqueStep_sublist l []

theorem unique_eq_of_nodup (l : List String) (h : l.Nodup) : unique l = l := by
  simpa using foldl_uniqueStep_eq_of_nodup l [] (by simpa using h)

theorem unique_append_singleton (l : List String) (a : String) :
    unique (l ++ [a]) = if a ∈ unique l then unique l else unique l ++ [a] := by
  simp [unique, List.foldl_append, uniqueStep]

/-! ## Theorems for the Telegram allow-list claim -/

/-- C7 counterexample: with an existing `allowFrom` list that itself
contains a duplicate (`["111", "111"]` is a perfectly possible persisted
configuration) and the already-present id `"111"`, the flow's merged list
is `unique(["111", "111", "111"]) = ["111"]`, which is *not* equal to the
existing list — so "an id already present leaves the list equal to the
existing list" fails as stated.  The first conjunct re-traces the whole
flow at this input. -/
theorem saveTelegramAllowFrom_counterexample :
    saveTelegramAllowFrom "111" ⟨none, true, some (.jstr "h1"),
        some (.jobj [("channels", .jobj [("telegram", .jobj
          [("allowFrom", .jarr [.jstr "111", .jstr "111"])])])])⟩ =
      Except.ok [RpcCall.configPatch "h1"
        (.jobj [("channels", .jobj [("telegram", .jobj
          [("enabled", .jbool true), ("dmPolicy", .jstr "allowlist"),
           ("allowFrom", .jarr [.jstr "111"])])])])
        "Welcome: configure Telegram allowFrom",
        RpcCall.channelsStatus true 12000] ∧
    allowFromOf ⟨none, true, some (.jstr "h1"),
        some (.jobj [("channels", .jobj [("telegram", .jobj
          [("allowFrom", .jarr [.jstr "111", .jstr "111"])])])])⟩ = ["111", "111"] ∧
    mergedAllowFrom ["111", "111"] "111" = ["111"] ∧
    (["111"] : List String) ≠ ["111", "111"] := by
  exact ⟨rfl, rfl, rfl, by decide⟩

/-- C7 (amended): for every non-empty raw user id and snapshot with a
base hash, the flow submits one `config.patch` whose `allowFrom` is
`unique(existing ++ [normalized id])`: duplicate-free, a subsequence of
`existing ++ [id]` (original order preserved, first occurrences kept),
containing exactly the existing entries plus the id.  Whenever the
existing list is itself duplicate-free — the normal case — an
already-present id leaves it exactly equal to the existing list and a
fresh id appends it; in particular `["111"]` plus `"222"` yields exactly
`["111", "222"]`. -/
theorem saveTelegramAllowFrom_merge (uid : String) (snap : ConfigSnapshot) (h : String)
    (hne : jsTrim uid ≠ "") (hb : baseHashOf snap = some h) :
    saveTelegramAllowFrom uid snap =
      Except.ok [RpcCall.configPatch h
        (.jobj [("channels", .jobj [("telegram", .jobj
          [("enabled", .jbool true), ("dmPolicy", .jstr "allowlist"),
           ("allowFrom", .jarr ((mergedAllowFrom (allowFromOf snap)
             (normalizeTelegramId (jsTrim uid))).map Json.jstr))])])])
        "Welcome: configure Telegram allowFrom",
        RpcCall.channelsStatus true 12000] ∧
    (∀ existing id, (mergedAllowFrom existing id).Nodup ∧
      List.Sublist (mergedAllowFrom existing id) (existing ++ [id]) ∧
      (∀ x, x ∈ mergedAllowFrom existing id ↔ x ∈ existing ∨ x = id) ∧
      (existing.Nodup → id ∈ existing → mergedAllowFrom existing id = existing) ∧
      (existing.Nodup → id ∉ existing → mergedAllowFrom existing id = existing ++ [id])) ∧
    mergedAllowFrom ["111"] "222" = ["111", "222"] := by
  refine ⟨?_, ?_, rfl⟩
  · rw [saveTelegramAllowFrom]
    simp only [hne, if_neg, hb]
    rfl
  · intro existing id
    refine ⟨unique_nodup _, unique_sublist _, ?_, ?_, ?_⟩
    · intro x
      rw [mergedAllowFrom, unique_mem]
      simp
    · intro hnd hmem
      rw [mergedAllowFrom, unique_append_singleton, unique_eq_of_nodup _ hnd,
        if_pos hmem]
    · intro hnd hmem
      rw [mergedAllowFrom, unique_append_singleton, unique_eq_of_nodup _ hnd,
        if_neg hmem]

/-- C7 witness: the amended theorem applied at the spec's own scenario —
existing `["111"]`, fresh id `"222"`. -/
theorem saveTelegramAllowFrom_merge_witness :
    saveTelegramAllowFrom "222" ⟨none, true, some (.jstr "h1"),
        some (.jobj [("channels", .jobj [("telegram", .jobj
          [("allowFrom", .jarr [.jstr "111"])])])])⟩ =
      Except.ok [RpcCall.configPatch "h1"
        (.jobj [("channels", .jobj [("telegram", .jobj
          [("enabled", .jbool true), ("dmPolicy", .jstr "allowlist"),
           ("allowFrom", .jarr ((mergedAllowFrom (allowFromOf ⟨none, true, some (.jstr "h1"),
             some (.jobj [("channels", .jobj [("telegram", .jobj
               [("allowFrom", .jarr [.jstr "111"])])])])⟩)
             (normalizeTelegramId (jsTrim "222"))).map Json.jstr))])])])
        "Welcome: configure Telegram allowFrom",
        RpcCall.channelsStatus true 12000] ∧
    mergedAllowFrom ["111"] "222" = ["111", "222"] := by
  have h := saveTelegramAllowFrom_merge "222" ⟨none, true, some (.jstr "h1"),
      some (.jobj [("channels", .jobj [("telegram", .jobj
        [("allowFrom", .jarr [.jstr "111"])])])])⟩ "h1" (by decide) rfl
  exact ⟨h.1, h.2.2⟩

/-! ## Lemmas and theorems for the chat streaming claim -/

theorem find?_update_text (l : List RunStream) (runId text : String) :
    (l.map (fun r => if r.runId = runId then { r with text := r.text ++ text } else r)).find?
        (fun r => r.runId = runId) =
      (l.find? (fun r => r.runId = runId)).map
        (fun r => { r with text := r.text ++ text }) := by
  induction l with
  | nil => rfl
  | cons r rest ih =>
    by_cases h : r.runId = runId
    · simp [h]
    · simp [h, ih]

theorem find?_append_none {α : Type} (l₁ l₂ : List α) (p : α → Bool)
    (h : l₁.find? p = none) : (l₁ ++ l₂).find? p = l₂.find? p := by
  induction l₁ with
  | nil => rfl
  | cons a as ih =>
    by_cases hpa : p a = true
    · simp [List.find?_cons_of_pos, hpa] at h
    · rw [List.find?_cons_of_neg _ hpa] at h
      rw [List.cons_append, List.find?_cons_of_neg _ hpa]
      exact ih h

theorem runsAfterDelta (l : List RunStream) (runId text : String) :
    ((if l.any (fun r => r.runId = runId) then
        l.map (fun r => if r.runId = runId then { r with text := r.text ++ text } else r)
      else l ++ [{ runId := runId, text := text }]).find?
        (fun r => r.runId = runId)).map (fun r => r.text) =
      some (((l.find? (fun r => r.runId = runId)).map (fun r => r.text)).getD "" ++ text) := by
  by_cases h : l.any (fun r => r.runId = runId)
  · rw [if_pos h, find?_update_text]
    have hsome : ∃ r, l.find? (fun r => r.runId = runId) = some r := by
      cases hf : l.find? (fun r => r.runId = runId) with
      | some r => exact ⟨r, rfl⟩
      | none =>
        obtain ⟨x, hx, hpx⟩ := List.any_eq_true.mp h
        exact absurd hpx (by simpa using List.find?_eq_none.mp hf x hx)
    obtain ⟨r, hr⟩ := hsome
    rw [hr]
    simp
  · rw [if_neg h]
    have hnone : l.find? (fun r => r.runId = runId) = none := by
      rw [List.find?_eq_none]
      intro x hx hpx
      exact h (List.any_eq_true.mpr ⟨x, hx, hpx⟩)
    rw [find?_append_none _ _ _ hnone, hnone]
    simp

theorem runTextOf_streamDelta (st : ChatState) (runId text : String) :
    (streamDeltaReceived st runId text).runTextOf runId =
      some (((st.runTextOf runId).getD "") ++ text) :=
  runsAfterDelta st.streamByRun runId text

/-- C4 counterexample: the same delta event (`runId "r"`, `seq 3`,
fragment `"X"`) delivered twice.  After the first application the run's
accumulated text is `"X"` and the highest sequence applied for the run is
3; the second event's `seq` (3) is ≤ that, yet applying it changes the
accumulated text to `"XX"` instead of leaving it unchanged — the handler
dispatches deltas without their `seq`, so nothing is dropped. -/
theorem chat_delta_duplicate_counterexample :
    (applyChatEvent "main" { messages := [], streamByRun := [], errorMsg := none }
      { event := "chat", runId := "r", sessionKey := "main", seq := 3, state := "delta",
        message := some (.jstr "X"), errorMessage := none }).runTextOf "r" = some "X" ∧
    (applyChatEvent "main"
      (applyChatEvent "main" { messages := [], streamByRun := [], errorMsg := none }
        { event := "chat", runId := "r", sessionKey := "main", seq := 3, state := "delta",
          message := some (.jstr "X"), errorMessage := none })
      { event := "chat", runId := "r", sessionKey := "main", seq := 3, state := "delta",
        message := some (.jstr "X"), errorMessage := none }).runTextOf "r" = some "XX" ∧
    some ("XX" : String) ≠ some ("X" : String) := by
  exact ⟨rfl, rfl, by decide⟩

/-- C4 (amended): the `ChatPage` handler forwards no sequence number for
delta events — the dispatched payload is only `{runId, text}` — so a
matching-session delta is applied identically whatever its `seq`: its
extracted text is appended to the run's accumulator (the run being
created on first contact).  Duplicate or reordered deltas are therefore
*not* suppressed; `seq` reaches the state machine only on `final`
events. -/
theorem chat_delta_applied_regardless_of_seq (sessionKey : String) (st : ChatState)
    (e : ChatEventRec) (hev : e.event = "chat") (hsk : e.sessionKey = sessionKey)
    (hst : e.state = "delta") :
    applyChatEvent sessionKey st e =
      streamDeltaReceived st e.runId (extractText e.message) ∧
    (∀ st' runId text, (streamDeltaReceived st' runId text).runTextOf runId =
      some (((st'.runTextOf runId).getD "") ++ text)) := by
  constructor
  · rw [applyChatEvent, onChatEvent]
    simp [hev, hsk, hst, applyChatAction]
  · intro st' runId text
    exact runTextOf_streamDelta st' runId text

/-- C4 witness for the amended theorem: a concrete delta event with
`seq 7` for an existing run holding `"Hel"` appends `"lo"` to give
`"Hello"`. -/
theorem chat_delta_applied_regardless_of_seq_witness :
    applyChatEvent "main"
        { messages := [], streamByRun := [{ runId := "r", text := "Hel" }], errorMsg := none }
        { event := "chat", runId := "r", sessionKey := "main", seq := 7, state := "delta",
          message := some (.jstr "lo"), errorMessage := none } =
      streamDeltaReceived
        { messages := [], streamByRun := [{ runId := "r", text := "Hel" }], errorMsg := none }
        "r" (extractText (some (.jstr "lo"))) ∧
    (streamDeltaReceived
        { messages := [], streamByRun := [{ runId := "r", text := "Hel" }], errorMsg := none }
        "r" "lo").runTextOf "r" = some ("Hel" ++ "lo") := by
  have h := chat_delta_applied_regardless_of_seq "main"
    { messages := [], streamByRun := [{ runId := "r", text := "Hel" }], errorMsg := none }
    { event := "chat", runId := "r", sessionKey := "main", seq := 7, state := "delta",
      message := some (.jstr "lo"), errorMessage := none } rfl rfl rfl
  exact ⟨h.1, h.2 _ "r" "lo"⟩

/-! ## Theorems for the broadcast / late-window claim -/

/-- C9: a Gateway state transition updates the last-known state and is
pushed to the current (non-destroyed) window, and a window created after
a transition is not left out: when no live window exists, the preload and
renderer paths are staged, and a last state is recorded,
`ensureMainWindow` creates a window and sends it exactly that state
before returning. -/
theorem gateway_state_broadcast_and_replay (last : Option GatewayState)
    (w : RendererWindow) (s : GatewayState) (ms : MainModuleState) (freshId : Nat)
    (gs : GatewayState)
    (hdead : ∀ w0, ms.mainWindow = some w0 → w0.destroyed = true)
    (hp : ms.preloadSet = true) (hr : ms.rendererSet = true)
    (hgs : ms.gatewayState = some gs) :
    (broadcastGatewayState last (some w) s).1 = some s ∧
    (w.destroyed = false →
      (broadcastGatewayState last (some w) s).2 =
        some { w with received := w.received ++ [s] }) ∧
    (∃ w', (ensureMainWindow ms freshId).2 = some w' ∧ w'.received = [gs] ∧
      (ensureMainWindow ms freshId).1.mainWindow = some w') := by
  refine ⟨rfl, ?_, ?_⟩
  · intro hwd
    simp [broadcastGatewayState, sendToWindow, hwd]
  · have hcreate : ensureMainWindow ms freshId = ensureMainWindowCreate ms freshId := by
      rw [ensureMainWindow]
      cases hmw : ms.mainWindow with
      | none => rfl
      | some w0 => simp [hdead w0 hmw]
    rw [hcreate, ensureMainWindowCreate]
    simp only [hp, hr, hgs]
    refine ⟨{ winId := freshId, destroyed := false, received := [gs] }, ?_⟩
    simp [broadcastGatewayState, sendToWindow]

/-- C9 witness: a fresh main-module state with a recorded `starting`
state and no window; `ensureMainWindow` creates a window that has
received exactly that state. -/
theorem gateway_state_broadcast_and_replay_witness :
    (broadcastGatewayState none
        (some { winId := 0, destroyed := false, received := [] })
        (GatewayState.starting 18789 "logs" "tok")).1 =
      some (GatewayState.starting 18789 "logs" "tok") ∧
    (∃ w', (ensureMainWindow
        { mainWindow := none,
          gatewayState := some (GatewayState.starting 18789 "logs" "tok"),
          preloadSet := true, rendererSet := true } 1).2 = some w' ∧
      w'.received = [GatewayState.starting 18789 "logs" "tok"]) := by
  have h := gateway_state_broadcast_and_replay none
    { winId := 0, destroyed := false, received := [] }
    (GatewayState.starting 18789 "logs" "tok")
    { mainWindow := none,
      gatewayState := some (GatewayState.starting 18789 "logs" "tok"),
      preloadSet := true, rendererSet := true } 1
    (GatewayState.starting 18789 "logs" "tok")
    (fun w0 hw0 => by simp at hw0) rfl rfl rfl
  exact ⟨h.1, h.2.2.elim (fun w' hw' => ⟨w', hw'.1, hw'.2.1⟩)⟩

/-! ## Theorems for the base-hash CAS claim -/

/-- A flow result never issues a `config.patch` with a base hash other
than `h`. -/
def patchCallsUseHash (r : FlowResult) (h : String) : Prop :=
  ∀ calls, r = Except.ok calls → ∀ c ∈ calls, c.isPatch = true → c.patchBaseHash = some h

/-- C1: the configuration-patch protocol is hash-guarded end to end.
Server side (modelled from the spec): a patch whose `baseHash` is missing
or different from the configuration's hash at apply time is rejected with
the respective distinct error and the store is returned unchanged
(byte-for-byte, as the same value).  Client side (from the source): the
base hash accepted by every flow is a non-empty trimmed string; each
patch-issuing flow throws `"Config base hash missing. Reload and try
again."` before issuing any RPC when the snapshot carries no usable hash;
and whenever the snapshot carries hash `h`, every `config.patch` any flow
issues uses exactly `h`. -/
theorem config_patch_base_hash_gate :
    (∀ hashOf store raw, applyConfigPatch hashOf store none raw =
      (store, Except.error PatchError.baseHashMissing)) ∧
    (∀ hashOf store h raw, h ≠ store.hash →
      applyConfigPatch hashOf store (some h) raw =
      (store, Except.error PatchError.staleBaseHash)) ∧
    (∀ snap h, baseHashOf snap = some h → h ≠ "") ∧
    (∀ st snap, baseHashOf snap = none → snap.existsFlag = true →
      (ensurePatch st snap).isEmpty = false →
      ensureExtendedConfig st snap = Except.error baseHashMissingMsg) ∧
    (∀ provider apiKey snap, jsTrim apiKey ≠ "" → baseHashOf snap = none →
      saveApiKey provider apiKey snap = Except.error baseHashMissingMsg) ∧
    (∀ modelId snap, baseHashOf snap = none →
      saveDefaultModel modelId snap = Except.error baseHashMissingMsg) ∧
    (∀ tok snap, jsTrim tok ≠ "" → baseHashOf snap = none →
      saveTelegramToken tok snap = Except.error baseHashMissingMsg) ∧
    (∀ uid snap, jsTrim uid ≠ "" → baseHashOf snap = none →
      saveTelegramAllowFrom uid snap = Except.error baseHashMissingMsg) ∧
    (∀ snap, baseHashOf snap = none →
      ensureGogExecDefaults snap = Except.error baseHashMissingMsg) ∧
    (∀ snap h, baseHashOf snap = some h →
      (∀ st, patchCallsUseHash (ensureExtendedConfig st snap) h) ∧
      (∀ provider apiKey, patchCallsUseHash (saveApiKey provider apiKey snap) h) ∧
      (∀ modelId, patchCallsUseHash (saveDefaultModel modelId snap) h) ∧
      (∀ tok, patchCallsUseHash (saveTelegramToken tok snap) h) ∧
      (∀ uid, patchCallsUseHash (saveTelegramAllowFrom uid snap) h) ∧
      patchCallsUseHash (ensureGogExecDefaults snap) h) := by
  refine ⟨?_, ?_, ?_, ?_, ?_, ?_, ?_, ?_, ?_, ?_⟩
  · intro hashOf store raw
    rfl
  · intro hashOf store h raw hne
    simp [applyConfigPatch, hne]
  · intro snap h hb
    rw [baseHashOf] at hb
    split at hb
    · split at hb
      · cases hb
      · next hs =>
        cases hb
        exact hs
    · cases hb
  · intro st snap hb he hp
    rw [ensureExtendedConfig, if_neg (by simp [he]), if_neg (by simp [hp]), hb]
  · intro provider apiKey snap hk hb
    rw [saveApiKey, if_neg hk, hb]
  · intro modelId snap hb
    rw [saveDefaultModel, hb]
  · intro tok snap ht hb
    simp [saveTelegramToken, ht, hb]
  · intro uid snap hu hb
    simp [saveTelegramAllowFrom, hu, hb]
  · intro snap hb
    rw [ensureGogExecDefaults, hb]
  · intro snap h hb
    refine ⟨?_, ?_, ?_, ?_, ?_, ?_⟩
    · intro st calls hcalls c hc hp
      by_cases he : snap.existsFlag = false
      · rw [ensureExtendedConfig, if_pos he] at hcalls
        cases hcalls
        simp only [List.mem_singleton] at hc
        rw [hc] at hp
        cases hp
      · by_cases hpe : (ensurePatch st snap).isEmpty
        · rw [ensureExtendedConfig, if_neg he, if_pos hpe] at hcalls
          cases hcalls
          cases hc
        · rw [ensureExtendedConfig, if_neg he, if_neg hpe, hb] at hcalls
          cases hcalls
          simp only [List.mem_singleton] at hc
          rw [hc]
          rfl
    · intro provider apiKey calls hcalls c hc hp
      by_cases hk : jsTrim apiKey = ""
      · rw [saveApiKey, if_pos hk] at hcalls
        cases hcalls
        cases hc
      · rw [saveApiKey, if_neg hk, hb] at hcalls
        cases hcalls
        simp only [List.mem_singleton] at hc
        rw [hc]
        rfl
    · intro modelId calls hcalls c hc hp
      rw [saveDefaultModel, hb] at hcalls
      cases hcalls
      simp only [List.mem_singleton] at hc
      rw [hc]
      rfl
    · intro tok calls hcalls c hc hp
      by_cases ht : jsTrim tok = ""
      · rw [saveTelegramToken] at hcalls
        simp only [ht, if_pos] at hcalls
        cases hcalls
        cases hc
      · rw [saveTelegramToken] at hcalls
        simp only [ht, if_neg, hb] at hcalls
        cases hcalls
        simp only [List.mem_singleton] at hc
        rw [hc]
        rfl
    · intro uid calls hcalls c hc hp
      by_cases hu : jsTrim uid = ""
      · rw [saveTelegramAllowFrom] at hcalls
        simp only [hu, if_pos] at hcalls
        cases hcalls
        cases hc
      · rw [saveTelegramAllowFrom] at hcalls
        simp only [hu, if_neg, hb] at hcalls
        cases hcalls
        rcases List.mem_cons.mp hc with rfl | hc2
        · rfl
        · simp only [List.mem_singleton] at hc2
          rw [hc2] at hp
          cases hp
    · intro calls hcalls c hc hp
      rw [ensureGogExecDefaults, hb] at hcalls
      cases hcalls
      simp only [List.mem_singleton] at hc
      rw [hc]
      rfl

/-- C1 witness: the server-side gate rejecting a stale hash and leaving
the store untouched, and two client flows failing before any RPC on a
hashless snapshot. -/
theorem config_patch_base_hash_gate_witness :
    applyConfigPatch (fun _ => "H2") ⟨Json.jnull, "H0"⟩ (some "H1") Json.jnull =
      (⟨Json.jnull, "H0"⟩, Except.error PatchError.staleBaseHash) ∧
    saveDefaultModel "m1" ⟨none, true, none, none⟩ = Except.error baseHashMissingMsg ∧
    ensureGogExecDefaults ⟨none, true, none, none⟩ = Except.error baseHashMissingMsg := by
  refine ⟨?_, ?_, ?_⟩
  · exact config_patch_base_hash_gate.2.1 (fun _ => "H2") ⟨Json.jnull, "H0"⟩ "H1"
      Json.jnull (by decide)
  · exact (config_patch_base_hash_gate.2.2.2.2.2.1) "m1" ⟨none, true, none, none⟩ rfl
  · exact (config_patch_base_hash_gate.2.2.2.2.2.2.2.2.1) ⟨none, true, none, none⟩ rfl

/-! ## Theorems for the seed-on-missing-config claim -/

/-- The gateway block of the seeded document, read the way the code reads
it. -/
def seededGateway (st : ReadyInfo) (snap : ConfigSnapshot) : List (String × Json) :=
  getObject (jget (seededConfig st snap) "gateway")

/-- The auth block inside the seeded document's gateway block. -/
def seededGatewayAuth (st : ReadyInfo) (snap : ConfigSnapshot) : List (String × Json) :=
  getObject (jget (seededGateway st snap) "auth")

theorem jget_seeded_gateway_pos (st : ReadyInfo) (snap : ConfigSnapshot)
    (hg : needsGateway st snap = true) :
    jget (seededConfig st snap) "gateway" = some (gatewayPatchValue st snap) := by
  rw [seededConfig, ensurePatch, if_pos hg]
  by_cases hw : currentWorkspaceOf snap = ""
  · rw [if_pos hw]
    show jget (objSet (objSet (cfgFieldsOf snap) "gateway" (gatewayPatchValue st snap))
      "agents" _) "gateway" = _
    rw [jget_objSet_other _ _ _ _ (by decide), jget_objSet_self]
  · rw [if_neg hw]
    show jget (objSet (cfgFieldsOf snap) "gateway" (gatewayPatchValue st snap))
      "gateway" = _
    rw [jget_objSet_self]

theorem jget_seeded_gateway_neg (st : ReadyInfo) (snap : ConfigSnapshot)
    (hg : needsGateway st snap = false) :
    jget (seededConfig st snap) "gateway" = jget (cfgFieldsOf snap) "gateway" := by
  rw [seededConfig, ensurePatch, if_neg (by simp [hg])]
  by_cases hw : currentWorkspaceOf snap = ""
  · rw [if_pos hw]
    show jget (objSet (cfgFieldsOf snap) "agents" _) "gateway" = _
    rw [jget_objSet_other _ _ _ _ (by decide)]
  · rw [if_neg hw]
    rfl

/-- C6: for every snapshot with `exists = false`, `ensureExtendedConfig`
issues a single `config.set` carrying the full seeded document
`{...cfg, ...patch}` (not a merge, and `config.set` carries no
`baseHash` — it is not a patch call), and that document's gateway block
carries `mode = "local"`, `bind = "loopback"`, the supervisor's current
port, and token auth with the supervisor's current token.  Each textual
field is either stored as exactly the required literal (the freshly
patched case) or already reads — via the code's own trimmed-string read —
as the required value (the case where the snapshot's config already
carried the desired gateway block). -/
theorem ensureExtendedConfig_seeds_defaults (st : ReadyInfo) (snap : ConfigSnapshot)
    (hne : snap.existsFlag = false) :
    ensureExtendedConfig st snap =
      Except.ok [RpcCall.configSet (.jobj (seededConfig st snap))] ∧
    (RpcCall.configSet (.jobj (seededConfig st snap))).isPatch = false ∧
    (jget (seededGateway st snap) "mode" = some (.jstr "local") ∨
      strTrimOf (jget (seededGateway st snap) "mode") = "local") ∧
    (jget (seededGateway st snap) "bind" = some (.jstr "loopback") ∨
      strTrimOf (jget (seededGateway st snap) "bind") = "loopback") ∧
    numOf (jget (seededGateway st snap) "port") = some st.port ∧
    (jget (seededGatewayAuth st snap) "mode" = some (.jstr "token") ∨
      strTrimOf (jget (seededGatewayAuth st snap) "mode") = "token") ∧
    (jget (seededGatewayAuth st snap) "token" = some (.jstr st.token) ∨
      strTrimOf (jget (seededGatewayAuth st snap) "token") = st.token) := by
  refine ⟨by rw [ensureExtendedConfig, if_pos hne], rfl, ?_⟩
  by_cases hg : needsGateway st snap = true
  · have hjg := jget_seeded_gateway_pos st snap hg
    have hG : seededGateway st snap =
        objSet (objSet (objSet (objSet (gatewayFieldsOf snap)
          "mode" (.jstr "local")) "bind" (.jstr "loopback")) "port" (.jnum st.port))
          "auth" (.jobj (objSet (objSet (gatewayAuthFieldsOf snap)
            "mode" (.jstr "token")) "token" (.jstr st.token))) := by
      rw [seededGateway, hjg]
      rfl
    have hA : seededGatewayAuth st snap =
        objSet (objSet (gatewayAuthFieldsOf snap) "mode" (.jstr "token"))
          "token" (.jstr st.token) := by
      rw [seededGatewayAuth, hG, jget_objSet_self]
      rfl
    refine ⟨?_, ?_, ?_, ?_, ?_⟩
    · left
      rw [hG, jget_objSet_other _ _ _ _ (by decide), jget_objSet_other _ _ _ _ (by decide),
        jget_objSet_other _ _ _ _ (by decide), jget_objSet_self]
    · left
      rw [hG, jget_objSet_other _ _ _ _ (by decide), jget_objSet_other _ _ _ _ (by decide),
        jget_objSet_self]
    · rw [hG, jget_objSet_other _ _ _ _ (by decide), jget_objSet_self]
      rfl
    · left
      rw [hA, jget_objSet_other _ _ _ _ (by decide), jget_objSet_self]
    · left
      rw [hA, jget_objSet_self]
  · have hgf : needsGateway st snap = false := by
      cases hx : needsGateway st snap
      · rfl
      · exact absurd hx hg
    have hjg := jget_seeded_gateway_neg st snap hgf
    have heq : ¬(strTrimOf (jget (gatewayFieldsOf snap) "mode") ≠ "local" ∨
        strTrimOf (jget (gatewayFieldsOf snap) "bind") ≠ "loopback" ∨
        numOf (jget (gatewayFieldsOf snap) "port") ≠ some st.port ∨
        strTrimOf (jget (gatewayAuthFieldsOf snap) "mode") ≠ "token" ∨
        strTrimOf (jget (gatewayAuthFieldsOf snap) "token") ≠ st.token) := by
      simpa [needsGateway, decide_eq_false_iff_not] using hgf
    push_neg at heq
    obtain ⟨h1, h2, h3, h4, h5⟩ := heq
    have hGd : seededGateway st snap = gatewayFieldsOf snap := by
      rw [seededGateway, hjg]
      rfl
    have hAd : seededGatewayAuth st snap = gatewayAuthFieldsOf snap := by
      rw [seededGatewayAuth, hGd]
      rfl
    exact ⟨Or.inr (hGd ▸ h1), Or.inr (hGd ▸ h2), hGd ▸ h3,
      Or.inr (hAd ▸ h4), Or.inr (hAd ▸ h5)⟩

/-- C6 witness: a first run — the snapshot reports `exists = false` with
no config document at all; the flow issues `config.set` with the seeded
document carrying the local/loopback gateway and the supervisor's
port 18789 and token `"tok"`. -/
theorem ensureExtendedConfig_seeds_defaults_witness :
    ensureExtendedConfig ⟨18789, "tok"⟩ ⟨none, false, none, none⟩ =
      Except.ok [RpcCall.configSet (.jobj (seededConfig ⟨18789, "tok"⟩
        ⟨none, false, none, none⟩))] ∧
    numOf (jget (seededGateway ⟨18789, "tok"⟩ ⟨none, false, none, none⟩) "port") =
      some 18789 ∧
    (jget (seededGatewayAuth ⟨18789, "tok"⟩ ⟨none, false, none, none⟩) "token" =
        some (.jstr "tok") ∨
      strTrimOf (jget (seededGatewayAuth ⟨18789, "tok"⟩ ⟨none, false, none, none⟩)
        "token") = "tok") := by
  have h := ensureExtendedConfig_seeds_defaults ⟨18789, "tok"⟩
    ⟨none, false, none, none⟩ rfl
  exact ⟨h.1, h.2.2.2.2.1, h.2.2.2.2.2.2⟩

end OpenClaw
